import Mathlib

/-! Catch2 expression decomposer (`catch2/internal/catch_decomposer.hpp`).

A shallow embedding of the decomposer header and the properties of its
capture, comparison, guard and reconstruction operations.

Conventions of the embedding

* C++ template instantiation is selected by operand type.  Operand types the
  header distinguishes (`T*`, `int`, `long`) are constructors of `Operand`, and
  so are the remaining integer types, which the language does not let compare
  with a pointer; every other type is an `Operand.other`.  A pointer operand
  also records
  whether its type is const-qualified (`T* const`), which overload resolution
  between a forwarding reference and `T* const&` depends on.
* Machine integers are mathematical integers; conversions between widths are
  written with an explicit `% 2 ^ w`.
* Collaborators that the header only declares or includes (`stringify`, the
  operand types' own operators and boolean conversion, the formatter, the
  recorder) are parameters, gathered in `Env`.
* Run-time effects are passed explicitly: `Counters` counts operator
  evaluations and `stringify` calls, `Ostream` is the text written so far.
* Build-time failures (`static_assert`, no matching operator) are values of
  `BuildError`, kept apart from run-time results.
-/

namespace Catch

/-! ## Operands and operators -/

/-- The integer types other than `int` and `long`. -/
inductive IntegerType where
  /-- The type `bool`. -/
  | bool
  /-- The character types. -/
  | character
  /-- The types `short` and `unsigned short`. -/
  | short
  /-- The type `unsigned int`. -/
  | unsignedInt
  /-- The type `unsigned long`. -/
  | unsignedLong
  /-- The type `long long`. -/
  | longLong
  /-- The type `unsigned long long`. -/
  | unsignedLongLong
  deriving DecidableEq, Repr

/-- Operand values, tagged with the part of their C++ type that overload
resolution in the header looks at. -/
inductive Operand (α : Type) where
  /-- A value of type `T*`, given by its address; `isConst` tells whether the
  operand is an lvalue of the const-qualified type `T* const`. -/
  | pointer (addr : Nat) (isConst : Bool)
  /-- A value of type `int`. -/
  | int (n : Int)
  /-- A value of type `long`. -/
  | long (n : Int)
  /-- A value of an integer type other than `int` and `long`. -/
  | integer (kind : IntegerType) (n : Int)
  /-- A value of any other type. -/
  | other (v : α)
  deriving DecidableEq, Repr

/-- The operators for which the header defines `operator op (ExprLhs, RhsT)`
returning a `BinaryExpr`. -/
inductive Operator where
  | eq | ne | lt | gt | le | ge | bitor | bitand | bitxor
  deriving DecidableEq, Repr

/-- The two logical operators, which the header only ever rejects. -/
inductive LogicalOperator where
  | and | or
  deriving DecidableEq, Repr

/-- Any operator that can be written after a captured expression. -/
inductive AppliedOperator where
  | symbol (op : Operator)
  | logical (op : LogicalOperator)
  deriving DecidableEq, Repr

/-- Preprocessor stringification `#op` of an operator token. -/
def stringize : Operator → String
  | .eq => "=="
  | .ne => "!="
  | .lt => "<"
  | .gt => ">"
  | .le => "<="
  | .ge => ">="
  | .bitor => "|"
  | .bitand => "&"
  | .bitxor => "^"

/-! ## Effects -/

/-- Instrumentation of the calls the header makes into operand code. -/
structure Counters where
  /-- Number of evaluations of a comparison / bitwise operator on operands. -/
  comparisons : Nat
  /-- Number of calls of `Catch::Detail::stringify`. -/
  stringifications : Nat
  deriving DecidableEq, Repr

/-- A computation that may call into operand code. -/
abbrev Eff (β : Type) : Type := Counters → β × Counters

/-- Use the value of a computation. -/
def Eff.map {β γ : Type} (g : β → γ) (run : Eff β) : Eff γ :=
  fun c =>
    let (value, c1) := run c
    (g value, c1)

/-- The text held by a `std::ostream`. -/
abbrev Ostream : Type := String

/-- Collaborators of the header: everything it uses but does not define. -/
structure Env (α : Type) where
  /-- Width of a pointer in bits. -/
  pointerBits : Nat
  /-- Value of the native expression `lhs op rhs`.  It is consulted for operands
  that are not a pointer paired with an integer; for those the expression is
  taken to have the same value in the body of a template as where it is
  written. -/
  binary : Operator → Operand α → Operand α → Operand α
  /-- Conversion `static_cast<bool>(v)`. -/
  toBool : Operand α → Bool
  /-- Text of `Catch::Detail::stringify(v)`. -/
  stringify : Operand α → String
  /-- Stream contents after `formatReconstructedExpression(os, lhs, op, rhs)`. -/
  formatReconstructedExpression : Ostream → String → String → String → Ostream

/-- The counters after one more operator evaluation. -/
def Counters.compared (c : Counters) : Counters :=
  { c with comparisons := c.comparisons + 1 }

/-- The counters after one more call of `stringify`. -/
def Counters.stringified (c : Counters) : Counters :=
  { c with stringifications := c.stringifications + 1 }

/-- Evaluate the native expression `lhs op rhs` once. -/
def evalOperator {α : Type} (env : Env α) (op : Operator) (lhs rhs : Operand α) :
    Eff (Operand α) :=
  fun c => (env.binary op lhs rhs, c.compared)

/-- Call `Catch::Detail::stringify(v)` once. -/
def callStringify {α : Type} (env : Env α) (v : Operand α) : Eff String :=
  fun c => (env.stringify v, c.stringified)

/-- The address `reinterpret_cast<void const*>(n)` of an integer: the integer
sign-extended or truncated to the pointer width. -/
def reinterpret_cast (pointerBits : Nat) (n : Int) : Nat :=
  (n % 2 ^ pointerBits).toNat

/-- The address of the null pointer. -/
def nullptr : Nat := 0

/-- Evaluate the built-in pointer comparison `p == q` once. -/
def pointerEqual (p q : Nat) : Eff Bool :=
  fun c => (decide (p = q), c.compared)

/-- Evaluate the built-in pointer comparison `p != q` once. -/
def pointerNotEqual (p q : Nat) : Eff Bool :=
  fun c => (decide (p ≠ q), c.compared)

/-! ## Expressions -/

/-- The base class `ITransientExpression`; the field
`streamReconstructedExpression` is its virtual member function. -/
structure ITransientExpression where
  m_isBinaryExpression : Bool
  m_result : Bool
  streamReconstructedExpression : Ostream → Eff Ostream

/-- Member `ITransientExpression::isBinaryExpression`. -/
def ITransientExpression.isBinaryExpression (e : ITransientExpression) : Eff Bool :=
  fun c => (e.m_isBinaryExpression, c)

/-- Member `ITransientExpression::getResult`. -/
def ITransientExpression.getResult (e : ITransientExpression) : Eff Bool :=
  fun c => (e.m_result, c)

/-- The class `BinaryExpr<LhsT, RhsT>`: base-class members and its own. -/
structure BinaryExpr (α : Type) where
  m_isBinaryExpression : Bool
  m_result : Bool
  m_lhs : Operand α
  m_op : String
  m_rhs : Operand α
  deriving DecidableEq, Repr

/-- Constructor `BinaryExpr( comparisonResult, lhs, op, rhs )`. -/
def BinaryExpr.ctor {α : Type} (comparisonResult : Bool) (lhs : Operand α) (op : String)
    (rhs : Operand α) : BinaryExpr α :=
  { m_isBinaryExpression := true
    m_result := comparisonResult
    m_lhs := lhs
    m_op := op
    m_rhs := rhs }

/-- Member `BinaryExpr::streamReconstructedExpression`. -/
def BinaryExpr.streamReconstructedExpression {α : Type} (env : Env α) (e : BinaryExpr α)
    (os : Ostream) : Eff Ostream :=
  fun c =>
    let (lhs, c1) := callStringify env e.m_lhs c
    let (rhs, c2) := callStringify env e.m_rhs c1
    (env.formatReconstructedExpression os lhs e.m_op rhs, c2)

/-- A `BinaryExpr` seen through its base class. -/
def BinaryExpr.toITransientExpression {α : Type} (env : Env α) (e : BinaryExpr α) :
    ITransientExpression :=
  { m_isBinaryExpression := e.m_isBinaryExpression
    m_result := e.m_result
    streamReconstructedExpression := e.streamReconstructedExpression env }

/-- The class `UnaryExpr<LhsT>`: base-class members and its own. -/
structure UnaryExpr (α : Type) where
  m_isBinaryExpression : Bool
  m_result : Bool
  m_lhs : Operand α
  deriving DecidableEq, Repr

/-- Constructor `UnaryExpr( lhs )`. -/
def UnaryExpr.ctor {α : Type} (env : Env α) (lhs : Operand α) : UnaryExpr α :=
  { m_isBinaryExpression := false
    m_result := env.toBool lhs
    m_lhs := lhs }

/-- Member `UnaryExpr::streamReconstructedExpression`. -/
def UnaryExpr.streamReconstructedExpression {α : Type} (env : Env α) (e : UnaryExpr α)
    (os : Ostream) : Eff Ostream :=
  fun c =>
    let (text, c1) := callStringify env e.m_lhs c
    (os ++ text, c1)

/-- A `UnaryExpr` seen through its base class. -/
def UnaryExpr.toITransientExpression {α : Type} (env : Env α) (e : UnaryExpr α) :
    ITransientExpression :=
  { m_isBinaryExpression := e.m_isBinaryExpression
    m_result := e.m_result
    streamReconstructedExpression := e.streamReconstructedExpression env }

/-! ## Build-time diagnostics and the shape guard -/

/-- Ways in which an expression fails to build. -/
inductive BuildError where
  /-- A `static_assert` fired with this message. -/
  | staticAssert (message : String)
  /-- The header declares no operator that accepts the operands. -/
  | noMatchingOperator
  /-- A built-in operator is applied to a pointer and an integer. -/
  | invalidOperands
  deriving DecidableEq, Repr

/-- The outcome of running an expression that may have failed to build. -/
def execute {β : Type} (built : Except BuildError (Eff β)) (c : Counters) :
    Option (β × Counters) :=
  match built with
  | .ok run => some (run c)
  | .error _ => none

/-- Modelled from the spec: `always_false<T>::value` of `catch_meta.hpp`, which
is not part of the sources at hand; the guard "fires unconditionally
regardless of operand types", so the value is `false` for every type. -/
def always_false (_T : Type) : Bool := false

/-- The declaration `static_assert(condition, message)`. -/
def static_assert (condition : Bool) (message : String) : Except BuildError Unit :=
  if condition then .ok () else .error (.staticAssert message)

/-- Message of the `static_assert` in the member operators of `BinaryExpr`. -/
def chainedComparisonMessage : String :=
  "chained comparisons are not supported inside assertions, " ++
  "wrap the expression inside parentheses, or decompose it"

/-- Message of the `static_assert` in `operator && ( ExprLhs<LhsT> &&, RhsT && )`. -/
def logicalAndMessage : String :=
  "operator&& is not supported inside assertions, " ++
  "wrap the expression inside parentheses, or decompose it"

/-- Message of the `static_assert` in `operator || ( ExprLhs<LhsT> &&, RhsT && )`. -/
def logicalOrMessage : String :=
  "operator|| is not supported inside assertions, " ++
  "wrap the expression inside parentheses, or decompose it"

/-- Body shared by the eight member operator templates of `BinaryExpr`
(`&&`, `||`, `==`, `!=`, `>`, `<`, `>=`, `<=`): a `static_assert` and no
`return` statement, so that no expression is produced. -/
def BinaryExpr.guardBody {α : Type} (T : Type) (_self : BinaryExpr α) (_rhs : T) :
    Except BuildError (Option (BinaryExpr α)) :=
  (static_assert (always_false T) chainedComparisonMessage).bind fun _ => .ok none

/-- Applying an operator to an already built `BinaryExpr`: overload resolution
over the member operators the class declares.  The free operator templates of
the header take an `ExprLhs` and do not apply. -/
def BinaryExpr.applyOperator {α : Type} (T : Type) (self : BinaryExpr α) :
    AppliedOperator → T → Except BuildError (Option (BinaryExpr α))
  | .logical .and, rhs => self.guardBody T rhs
  | .logical .or, rhs => self.guardBody T rhs
  | .symbol .eq, rhs => self.guardBody T rhs
  | .symbol .ne, rhs => self.guardBody T rhs
  | .symbol .gt, rhs => self.guardBody T rhs
  | .symbol .lt, rhs => self.guardBody T rhs
  | .symbol .ge, rhs => self.guardBody T rhs
  | .symbol .le, rhs => self.guardBody T rhs
  | .symbol .bitor, _ => .error .noMatchingOperator
  | .symbol .bitand, _ => .error .noMatchingOperator
  | .symbol .bitxor, _ => .error .noMatchingOperator

/-! ## Comparator functions -/

/-- Is one operand a pointer and the other an `int` or a `long`? -/
def isPointerIntOrLongPair {α : Type} : Operand α → Operand α → Bool
  | .pointer _ _, .int _ => true
  | .pointer _ _, .long _ => true
  | .int _, .pointer _ _ => true
  | .long _, .pointer _ _ => true
  | _, _ => false

/-- Is one operand a pointer and the other of an integer type other than `int`
and `long`? -/
def isPointerOtherIntegerPair {α : Type} : Operand α → Operand α → Bool
  | .pointer _ _, .integer _ _ => true
  | .integer _ _, .pointer _ _ => true
  | _, _ => false

/-- Is one operand a pointer and the other of any integer type? -/
def isPointerIntegerPair {α : Type} (lhs rhs : Operand α) : Bool :=
  isPointerIntOrLongPair lhs rhs || isPointerOtherIntegerPair lhs rhs

/-- The native expression `lhs op rhs` in the body of a template.  There the
operands are variables, so an integer is never a null pointer constant, and
no operator of the language takes a pointer together with a value of an
integer type, whichever it is: such an expression does not build.  For all
other operand types the value is the collaborator's. -/
def nativeOperator {α : Type} (env : Env α) (op : Operator) (lhs rhs : Operand α) :
    Except BuildError (Eff (Operand α)) :=
  if isPointerIntegerPair lhs rhs then .error .invalidOperands
  else .ok (evalOperator env op lhs rhs)

/-- Body of the generic templates `compareEqual` and `compareNotEqual`:
`static_cast<bool>(lhs op rhs)`. -/
def compareGeneric {α : Type} (env : Env α) (op : Operator) (lhs rhs : Operand α) :
    Except BuildError (Eff Bool) :=
  (nativeOperator env op lhs rhs).map (Eff.map fun value => env.toBool value)

/-- The overload set `compareEqual`.  The generic template takes both operands
by `const&`, so for a pointer paired with an `int` or a `long` the specialised
overload has the same conversions and wins as the more specialised template;
every other pair of operand types takes the generic template, which is an
exact match where the specialised overloads would need a conversion: so does
a pointer paired with an integer of another type. -/
def compareEqual {α : Type} (env : Env α) :
    Operand α → Operand α → Except BuildError (Eff Bool)
  | .pointer lhs _, .int rhs => .ok (pointerEqual lhs (reinterpret_cast env.pointerBits rhs))
  | .pointer lhs _, .long rhs => .ok (pointerEqual lhs (reinterpret_cast env.pointerBits rhs))
  | .int lhs, .pointer rhs _ => .ok (pointerEqual (reinterpret_cast env.pointerBits lhs) rhs)
  | .long lhs, .pointer rhs _ => .ok (pointerEqual (reinterpret_cast env.pointerBits lhs) rhs)
  | lhs, rhs => compareGeneric env .eq lhs rhs

/-- The overload set `compareNotEqual`.  Its generic template takes the right
operand by forwarding reference, `RhsT&&`.  The callers pass an lvalue, so for
a right operand of type `T*` the generic parameter is `T*&`, a better
conversion than the `T* const&` of the two overloads with the pointer on the
right: the generic template is selected, unless the operand is itself
`T* const`.  With the pointer on the left both candidates take it by
`T* const&` and the specialised overload wins. -/
def compareNotEqual {α : Type} (env : Env α) :
    Operand α → Operand α → Except BuildError (Eff Bool)
  | .pointer lhs _, .int rhs =>
      .ok (pointerNotEqual lhs (reinterpret_cast env.pointerBits rhs))
  | .pointer lhs _, .long rhs =>
      .ok (pointerNotEqual lhs (reinterpret_cast env.pointerBits rhs))
  | .int lhs, .pointer rhs true =>
      .ok (pointerNotEqual (reinterpret_cast env.pointerBits lhs) rhs)
  | .long lhs, .pointer rhs true =>
      .ok (pointerNotEqual (reinterpret_cast env.pointerBits lhs) rhs)
  | lhs, rhs => compareGeneric env .ne lhs rhs

/-! ## The capture object and its operators -/

/-- The capture object `ExprLhs<LhsT>`. -/
structure ExprLhs (α : Type) where
  m_lhs : Operand α
  deriving DecidableEq, Repr

/-- Member `ExprLhs::makeUnaryExpr`. -/
def ExprLhs.makeUnaryExpr {α : Type} (env : Env α) (self : ExprLhs α) : UnaryExpr α :=
  UnaryExpr.ctor env self.m_lhs

/-- The two templates `operator == ( ExprLhs<LhsT> &&, RhsT )`.  They differ in
how the right operand is passed (forwarding reference, or by value when
`RhsT` is arithmetic) and have the same body. -/
def operatorEq {α : Type} (env : Env α) (lhs : ExprLhs α) (rhs : Operand α) :
    Except BuildError (Eff (BinaryExpr α)) :=
  (compareEqual env lhs.m_lhs rhs).map
    (Eff.map fun result => BinaryExpr.ctor result lhs.m_lhs "==" rhs)

/-- The two templates `operator != ( ExprLhs<LhsT> &&, RhsT )`. -/
def operatorNe {α : Type} (env : Env α) (lhs : ExprLhs α) (rhs : Operand α) :
    Except BuildError (Eff (BinaryExpr α)) :=
  (compareNotEqual env lhs.m_lhs rhs).map
    (Eff.map fun result => BinaryExpr.ctor result lhs.m_lhs "!=" rhs)

/-- The two templates generated by `CATCH_INTERNAL_DEFINE_EXPRESSION_OPERATOR(op)`. -/
def CATCH_INTERNAL_DEFINE_EXPRESSION_OPERATOR {α : Type} (op : Operator) (env : Env α)
    (lhs : ExprLhs α) (rhs : Operand α) : Except BuildError (Eff (BinaryExpr α)) :=
  (nativeOperator env op lhs.m_lhs rhs).map
    (Eff.map fun value =>
      let result := env.toBool value
      BinaryExpr.ctor result lhs.m_lhs (stringize op) rhs)

/-- The expression `lhs op rhs` for a capture object `lhs`: the operator
template the header defines for each of the nine supported operators. -/
def ExprLhs.applyOperator {α : Type} (env : Env α) (lhs : ExprLhs α) (op : Operator)
    (rhs : Operand α) : Except BuildError (Eff (BinaryExpr α)) :=
  match op with
  | .eq => operatorEq env lhs rhs
  | .ne => operatorNe env lhs rhs
  | .lt => CATCH_INTERNAL_DEFINE_EXPRESSION_OPERATOR .lt env lhs rhs
  | .gt => CATCH_INTERNAL_DEFINE_EXPRESSION_OPERATOR .gt env lhs rhs
  | .le => CATCH_INTERNAL_DEFINE_EXPRESSION_OPERATOR .le env lhs rhs
  | .ge => CATCH_INTERNAL_DEFINE_EXPRESSION_OPERATOR .ge env lhs rhs
  | .bitor => CATCH_INTERNAL_DEFINE_EXPRESSION_OPERATOR .bitor env lhs rhs
  | .bitand => CATCH_INTERNAL_DEFINE_EXPRESSION_OPERATOR .bitand env lhs rhs
  | .bitxor => CATCH_INTERNAL_DEFINE_EXPRESSION_OPERATOR .bitxor env lhs rhs

/-- The template `operator && ( ExprLhs<LhsT> &&, RhsT && )`. -/
def operatorAnd {α : Type} (T : Type) (_lhs : ExprLhs α) (_rhs : T) :
    Except BuildError (Option (BinaryExpr α)) :=
  (static_assert (always_false T) logicalAndMessage).bind fun _ => .ok none

/-- The template `operator || ( ExprLhs<LhsT> &&, RhsT && )`. -/
def operatorOr {α : Type} (T : Type) (_lhs : ExprLhs α) (_rhs : T) :
    Except BuildError (Option (BinaryExpr α)) :=
  (static_assert (always_false T) logicalOrMessage).bind fun _ => .ok none

/-- The entry-point type `Decomposer`. -/
structure Decomposer where
  deriving DecidableEq, Repr

/-- The two templates `operator <= ( Decomposer &&, T )`: both wrap the operand
in a capture object. -/
def Decomposer.le {α : Type} (_self : Decomposer) (lhs : Operand α) : ExprLhs α :=
  { m_lhs := lhs }

/-- Capturing `lhs op rhs`: `Decomposer() <= lhs op rhs`. -/
def captureBinary {α : Type} (env : Env α) (op : Operator) (lhs rhs : Operand α) :
    Except BuildError (Eff (BinaryExpr α)) :=
  (Decomposer.le {} lhs).applyOperator env op rhs

/-- Capturing a bare value: `Decomposer() <= v`, converted on handoff. -/
def captureUnary {α : Type} (env : Env α) (v : Operand α) : UnaryExpr α :=
  (Decomposer.le {} v).makeUnaryExpr env

/-- The stored result of a captured binary expression, when it builds. -/
def resultOf {α : Type} (built : Except BuildError (Eff (BinaryExpr α))) (c : Counters) :
    Option Bool :=
  (execute built c).map fun r => r.1.m_result

/-! ## Reference semantics of undecomposed expressions -/

/-- Modelled from the spec: the formatter `formatReconstructedExpression` is
declared in the header and defined in a source file that is not at hand; the
text it adds is the left text, the operator and the right text separated by
single spaces (`"3 == 4"`). -/
def formatReconstructedExpression (os : Ostream) (lhs op rhs : String) : Ostream :=
  os ++ (lhs ++ " " ++ op ++ " " ++ rhs)

/-! ## A concrete environment -/

/-- Built-in operators on two `int`, two pointer or two `bool` operands (a
`bool` result is an `Operand.other`): comparisons yield a `bool`, the bitwise
operators on `int` an `int`.  Other combinations are not used and yield
`false`. -/
def builtinBinary : Operator → Operand Bool → Operand Bool → Operand Bool
  | .eq, .int a, .int b => .other (decide (a = b))
  | .ne, .int a, .int b => .other (decide (a ≠ b))
  | .lt, .int a, .int b => .other (decide (a < b))
  | .gt, .int a, .int b => .other (decide (a > b))
  | .le, .int a, .int b => .other (decide (a ≤ b))
  | .ge, .int a, .int b => .other (decide (a ≥ b))
  | .bitor, .int a, .int b => .int (Int.lor a b)
  | .bitand, .int a, .int b => .int (Int.land a b)
  | .bitxor, .int a, .int b => .int (Int.xor a b)
  | .eq, .pointer p _, .pointer q _ => .other (decide (p = q))
  | .ne, .pointer p _, .pointer q _ => .other (decide (p ≠ q))
  | .eq, .other a, .other b => .other (decide (a = b))
  | .ne, .other a, .other b => .other (decide (a ≠ b))
  | _, _, _ => .other false

/-- Built-in conversion to `bool`. -/
def builtinToBool : Operand Bool → Bool
  | .pointer p _ => decide (p ≠ nullptr)
  | .int n => decide (n ≠ 0)
  | .long n => decide (n ≠ 0)
  | .integer _ n => decide (n ≠ 0)
  | .other b => b

/-- A stand-in for `stringify` on built-in operands. -/
def builtinStringify : Operand Bool → String
  | .pointer p _ => "0x" ++ String.mk (Nat.toDigits 16 p)
  | .int n => if n < 0 then "-" ++ String.mk (Nat.toDigits 10 n.natAbs)
      else String.mk (Nat.toDigits 10 n.natAbs)
  | .long n => if n < 0 then "-" ++ String.mk (Nat.toDigits 10 n.natAbs)
      else String.mk (Nat.toDigits 10 n.natAbs)
  | .integer _ n => if n < 0 then "-" ++ String.mk (Nat.toDigits 10 n.natAbs)
      else String.mk (Nat.toDigits 10 n.natAbs)
  | .other b => if b then "true" else "false"

/-- The built-in environment, with 64-bit pointers and the formatter of the
spec. -/
def builtinEnv : Env Bool :=
  { pointerBits := 64
    binary := builtinBinary
    toBool := builtinToBool
    stringify := builtinStringify
    formatReconstructedExpression := formatReconstructedExpression }

end Catch

namespace Catch

/-! ## Basic facts about the capture operators -/

section lemmas

variable {α : Type}

theorem reinterpret_cast_zero (bits : Nat) : reinterpret_cast bits 0 = nullptr := by
  simp [reinterpret_cast, nullptr]

theorem reinterpret_cast_of_nonneg (bits : Nat) (n : Int) (h0 : 0 ≤ n)
    (h1 : n < 2 ^ bits) : reinterpret_cast bits n = n.toNat := by
  unfold reinterpret_cast
  rw [Int.emod_eq_of_lt h0 h1]

theorem nativeOperator_generic (env : Env α) (op : Operator) (a b : Operand α)
    (h : isPointerIntegerPair a b = false) :
    nativeOperator env op a b = .ok (evalOperator env op a b) := by
  simp [nativeOperator, h]

theorem compareGeneric_generic (env : Env α) (op : Operator) (a b : Operand α)
    (h : isPointerIntegerPair a b = false) :
    compareGeneric env op a b =
      .ok (fun c => (env.toBool (env.binary op a b), c.compared)) := by
  rw [compareGeneric, nativeOperator_generic env op a b h]
  rfl

theorem compareEqual_generic (env : Env α) (a b : Operand α)
    (h : isPointerIntegerPair a b = false) :
    compareEqual env a b = .ok (fun c => (env.toBool (env.binary .eq a b), c.compared)) := by
  rw [← compareGeneric_generic env .eq a b h]
  cases a <;> cases b <;>
    first
    | rfl
    | simp [isPointerIntegerPair, isPointerIntOrLongPair, isPointerOtherIntegerPair] at h

theorem compareNotEqual_generic (env : Env α) (a b : Operand α)
    (h : isPointerIntegerPair a b = false) :
    compareNotEqual env a b = .ok (fun c => (env.toBool (env.binary .ne a b), c.compared)) := by
  rw [← compareGeneric_generic env .ne a b h]
  cases a <;> cases b <;>
    first
    | rfl
    | simp [isPointerIntegerPair, isPointerIntOrLongPair, isPointerOtherIntegerPair] at h

/-- Capturing `a op b` for operands that are not a pointer paired with an
integer. -/
theorem captureBinary_generic (env : Env α) (op : Operator) (a b : Operand α)
    (h : isPointerIntegerPair a b = false) :
    captureBinary env op a b =
      .ok (fun c =>
        (BinaryExpr.ctor (env.toBool (env.binary op a b)) a (stringize op) b, c.compared)) := by
  cases op
  case eq =>
    simp only [captureBinary, ExprLhs.applyOperator, operatorEq, Decomposer.le,
      compareEqual_generic env a b h]
    rfl
  case ne =>
    simp only [captureBinary, ExprLhs.applyOperator, operatorNe, Decomposer.le,
      compareNotEqual_generic env a b h]
    rfl
  all_goals
    simp only [captureBinary, ExprLhs.applyOperator, CATCH_INTERNAL_DEFINE_EXPRESSION_OPERATOR,
      Decomposer.le, nativeOperator_generic env _ a b h]
    rfl

theorem execute_map {β γ : Type} (built : Except BuildError (Eff β)) (g : β → γ)
    (c : Counters) (r : γ × Counters) (h : execute (built.map (Eff.map g)) c = some r) :
    ∃ v, execute built c = some (v, r.2) ∧ r.1 = g v := by
  cases built with
  | error err => simp [Except.map, execute] at h
  | ok run =>
    simp only [Except.map, execute, Eff.map, Option.some.injEq] at h
    exact ⟨(run c).1, by rw [← h]; rfl, by rw [← h]⟩

theorem execute_nativeOperator (env : Env α) (op : Operator) (a b : Operand α)
    (c : Counters) (r : Operand α × Counters)
    (h : execute (nativeOperator env op a b) c = some r) : r.2 = c.compared := by
  unfold nativeOperator at h
  split at h
  · simp [execute] at h
  · simp only [execute, evalOperator, Option.some.injEq] at h
    rw [← h]

theorem execute_compareGeneric (env : Env α) (op : Operator) (a b : Operand α)
    (c : Counters) (r : Bool × Counters)
    (h : execute (compareGeneric env op a b) c = some r) : r.2 = c.compared := by
  obtain ⟨v, hv, _⟩ := execute_map _ _ c r h
  exact execute_nativeOperator env op a b c _ hv

theorem execute_compareEqual (env : Env α) (a b : Operand α) (c : Counters)
    (r : Bool × Counters) (h : execute (compareEqual env a b) c = some r) :
    r.2 = c.compared := by
  cases a <;> cases b <;>
    first
    | exact execute_compareGeneric env .eq _ _ c r h
    | (simp only [compareEqual, execute, pointerEqual, Option.some.injEq] at h; rw [← h])

theorem execute_compareNotEqual (env : Env α) (a b : Operand α) (c : Counters)
    (r : Bool × Counters) (h : execute (compareNotEqual env a b) c = some r) :
    r.2 = c.compared := by
  cases a <;> cases b <;>
    first
    | exact execute_compareGeneric env .ne _ _ c r h
    | (simp only [compareNotEqual, execute, pointerNotEqual, Option.some.injEq] at h; rw [← h])
    | (rename_i k; cases k <;>
        first
        | exact execute_compareGeneric env .ne _ _ c r h
        | (simp only [compareNotEqual, execute, pointerNotEqual, Option.some.injEq] at h
           rw [← h]))

/-- Whatever the operands, a binary expression that builds holds the operands
and the operator token, and has evaluated one operator. -/
theorem captureBinary_shape (env : Env α) (op : Operator) (a b : Operand α)
    (c c2 : Counters) (e : BinaryExpr α)
    (h : execute (captureBinary env op a b) c = some (e, c2)) :
    c2 = c.compared ∧ e = BinaryExpr.ctor e.m_result a (stringize op) b := by
  cases op
  case eq =>
    obtain ⟨v, hv, he⟩ := execute_map _ _ c _ h
    exact ⟨execute_compareEqual env a b c _ hv, by rw [show e = _ from he]; rfl⟩
  case ne =>
    obtain ⟨v, hv, he⟩ := execute_map _ _ c _ h
    exact ⟨execute_compareNotEqual env a b c _ hv, by rw [show e = _ from he]; rfl⟩
  all_goals
    obtain ⟨v, hv, he⟩ := execute_map _ _ c _ h
    exact ⟨execute_nativeOperator env _ a b c _ hv, by rw [show e = _ from he]; rfl⟩

/-- Capturing an equality or inequality of a pointer and an integer of a type
other than `int` and `long` does not build, and neither does any other
operator on a pointer and an integer. -/
theorem captureBinary_pointer_other_integer (env : Env α) (op : Operator) (a b : Operand α)
    (h : isPointerOtherIntegerPair a b = true) :
    captureBinary env op a b = .error .invalidOperands := by
  cases a <;> cases b <;>
    first
    | (cases op <;> rfl)
    | (exfalso; revert h; simp [isPointerOtherIntegerPair])

end lemmas

/-! ## Equality capture -/

/-- C4: for a pointer `p`, capturing `p == 0` with an `int` or `long` zero gives
the result of comparing `p` with the null pointer; for a non-zero `int` or
`long` `n` whose bit pattern, at pointer width, is the address of `p`,
capturing `p == n` gives true; both hold with the operands swapped, and
`compareEqual(p, n)` equals `compareEqual(n, p)`. -/
theorem pointer_integer_equal {α : Type} (env : Env α) (p : Nat) (k : Bool) (n : Int)
    (c : Counters) :
    (resultOf (captureBinary env .eq (.pointer p k) (.int 0)) c =
        some (pointerEqual p nullptr c).1 ∧
      resultOf (captureBinary env .eq (.pointer p k) (.long 0)) c =
        some (pointerEqual p nullptr c).1 ∧
      resultOf (captureBinary env .eq (.int 0) (.pointer p k)) c =
        some (pointerEqual nullptr p c).1 ∧
      resultOf (captureBinary env .eq (.long 0) (.pointer p k)) c =
        some (pointerEqual nullptr p c).1) ∧
    (n ≠ 0 → reinterpret_cast env.pointerBits n = p →
      resultOf (captureBinary env .eq (.pointer p k) (.int n)) c = some true ∧
      resultOf (captureBinary env .eq (.pointer p k) (.long n)) c = some true ∧
      resultOf (captureBinary env .eq (.int n) (.pointer p k)) c = some true ∧
      resultOf (captureBinary env .eq (.long n) (.pointer p k)) c = some true) ∧
    (0 < n → n < 2 ^ env.pointerBits → n.toNat = p →
      resultOf (captureBinary env .eq (.pointer p k) (.int n)) c = some true ∧
      resultOf (captureBinary env .eq (.int n) (.pointer p k)) c = some true) ∧
    (resultOf (captureBinary env .eq (.pointer p k) (.int n)) c = some true ↔
      p = reinterpret_cast env.pointerBits n) ∧
    (compareEqual env (.pointer p k) (.int n) = compareEqual env (.int n) (.pointer p k) ∧
      compareEqual env (.pointer p k) (.long n) = compareEqual env (.long n) (.pointer p k)) := by
  have key : ∀ q r : Nat, ∀ x y : Operand α,
      resultOf (Except.map (Eff.map fun result => BinaryExpr.ctor result x "==" y)
        (.ok (pointerEqual q r))) c = some (decide (q = r)) := fun _ _ _ _ => rfl
  have sym : ∀ q r : Nat, pointerEqual q r = pointerEqual r q := by
    intro q r
    funext c0
    simp [pointerEqual, eq_comm]
  refine ⟨?_, ?_, ?_, ?_, ?_⟩
  · simp only [captureBinary, ExprLhs.applyOperator, operatorEq, Decomposer.le, compareEqual,
      key, reinterpret_cast_zero, pointerEqual]
    exact ⟨trivial, trivial, trivial, trivial⟩
  · intro _ hp
    simp [captureBinary, ExprLhs.applyOperator, operatorEq, Decomposer.le, compareEqual,
      key, hp]
  · intro h0 h1 hp
    have hc : reinterpret_cast env.pointerBits n = p := by
      rw [reinterpret_cast_of_nonneg _ _ (le_of_lt h0) h1, hp]
    simp [captureBinary, ExprLhs.applyOperator, operatorEq, Decomposer.le, compareEqual,
      key, hc]
  · simp [captureBinary, ExprLhs.applyOperator, operatorEq, Decomposer.le, compareEqual, key]
  · simp only [compareEqual, sym p]
    exact ⟨trivial, trivial⟩

/-- C4, at the pointer with address `4096` and the integer `4096`, 64-bit pointers. -/
theorem pointer_integer_equal_witness :
    ((4096 : Int) ≠ 0 ∧ reinterpret_cast builtinEnv.pointerBits 4096 = 4096 ∧
      (0 : Int) < 4096 ∧ (4096 : Int) < 2 ^ builtinEnv.pointerBits ∧
      (4096 : Int).toNat = 4096) ∧
    (resultOf (captureBinary builtinEnv .eq (.pointer 4096 false) (.int 4096)) ⟨0, 0⟩ =
        some true ∧
      resultOf (captureBinary builtinEnv .eq (.pointer 4096 false) (.long 4096)) ⟨0, 0⟩ =
        some true ∧
      resultOf (captureBinary builtinEnv .eq (.int 4096) (.pointer 4096 false)) ⟨0, 0⟩ =
        some true ∧
      resultOf (captureBinary builtinEnv .eq (.long 4096) (.pointer 4096 false)) ⟨0, 0⟩ =
        some true) ∧
    (resultOf (captureBinary builtinEnv .eq (.pointer 4096 false) (.int 4096)) ⟨0, 0⟩ =
        some true ∧
      resultOf (captureBinary builtinEnv .eq (.int 4096) (.pointer 4096 false)) ⟨0, 0⟩ =
        some true) :=
  ⟨⟨by decide, by decide, by decide, by decide, by decide⟩,
    (pointer_integer_equal builtinEnv 4096 false 4096 ⟨0, 0⟩).2.1 (by decide) (by decide),
    (pointer_integer_equal builtinEnv 4096 false 4096 ⟨0, 0⟩).2.2.1 (by decide) (by decide)
      (by decide)⟩

/-- C10, at the failing input `0 != p` for a pointer variable `p` of type `T*`
(address `4096`): `compareNotEqual` resolves to the generic template, whose
comparison of an integer with a pointer does not build, although
`compareEqual` on the same operands builds and answers `false`; the same
holds for a `long` on the left.  With the pointer on the left, or declared
`T* const`, the capture builds and answers `true`. -/
theorem not_equal_integer_left_does_not_build :
    (compareNotEqual builtinEnv (.int 0) (.pointer 4096 false) = .error .invalidOperands ∧
      captureBinary builtinEnv .ne (.int 0) (.pointer 4096 false) =
        .error .invalidOperands ∧
      captureBinary builtinEnv .ne (.long 0) (.pointer 4096 false) =
        .error .invalidOperands) ∧
    (execute (compareEqual builtinEnv (.int 0) (.pointer 4096 false)) ⟨0, 0⟩ =
        some (false, ⟨1, 0⟩) ∧
      resultOf (captureBinary builtinEnv .eq (.int 0) (.pointer 4096 false)) ⟨0, 0⟩ =
        some false) ∧
    (resultOf (captureBinary builtinEnv .ne (.pointer 4096 false) (.int 0)) ⟨0, 0⟩ =
        some true ∧
      resultOf (captureBinary builtinEnv .ne (.int 0) (.pointer 4096 true)) ⟨0, 0⟩ =
        some true) := by
  refine ⟨⟨rfl, rfl, rfl⟩, ⟨by decide, by decide⟩, by decide, by decide⟩

/-- The part of the pointer / integer inequality that the overloads provide:
with the pointer on the left, or a `T* const` pointer on the right,
`compareNotEqual` builds and is the negation of `compareEqual`; the `int` and
`long` overloads agree; with an integer on the left of a `T*` operand it does
not build. -/
theorem compareNotEqual_pointer_integer {α : Type} (env : Env α) (p : Nat) (k : Bool)
    (n : Int) (c : Counters) :
    ((execute (compareNotEqual env (.pointer p k) (.int n)) c).map Prod.fst =
        (execute (compareEqual env (.pointer p k) (.int n)) c).map (fun r => !r.1) ∧
      (execute (compareNotEqual env (.pointer p k) (.long n)) c).map Prod.fst =
        (execute (compareEqual env (.pointer p k) (.long n)) c).map (fun r => !r.1) ∧
      (execute (compareNotEqual env (.int n) (.pointer p true)) c).map Prod.fst =
        (execute (compareEqual env (.int n) (.pointer p true)) c).map (fun r => !r.1) ∧
      (execute (compareNotEqual env (.long n) (.pointer p true)) c).map Prod.fst =
        (execute (compareEqual env (.long n) (.pointer p true)) c).map (fun r => !r.1)) ∧
    ((resultOf (captureBinary env .ne (.pointer p k) (.int 0)) c = some true ↔ p ≠ nullptr) ∧
      (resultOf (captureBinary env .ne (.pointer p k) (.long 0)) c = some true ↔
        p ≠ nullptr)) ∧
    (compareEqual env (.pointer p k) (.int n) = compareEqual env (.pointer p k) (.long n) ∧
      compareEqual env (.int n) (.pointer p k) = compareEqual env (.long n) (.pointer p k) ∧
      compareNotEqual env (.pointer p k) (.int n) =
        compareNotEqual env (.pointer p k) (.long n)) ∧
    (compareNotEqual env (.int n) (.pointer p false) = .error .invalidOperands ∧
      compareNotEqual env (.long n) (.pointer p false) = .error .invalidOperands) := by
  refine ⟨?_, ?_, ⟨rfl, rfl, rfl⟩, rfl, rfl⟩
  · simp [compareEqual, compareNotEqual, execute, pointerEqual, pointerNotEqual]
  · have key : ∀ q r : Nat, ∀ x y : Operand α,
        resultOf (Except.map (Eff.map fun result => BinaryExpr.ctor result x "!=" y)
          (.ok (pointerNotEqual q r))) c = some (decide (q ≠ r)) := fun _ _ _ _ => rfl
    simp [captureBinary, ExprLhs.applyOperator, operatorNe, Decomposer.le, compareNotEqual,
      key, reinterpret_cast_zero]

/-! ## Evaluation counts -/

/-- C5: building the binary expression for `a op b` evaluates the operands'
operator exactly once, whatever the operator, the operands and the outcome
(and it does build for operands that are not a pointer paired with an integer);
`getResult`, `isBinaryExpression` and reconstruction evaluate it no further
time, and `getResult` returns the stored result. -/
theorem comparison_evaluated_once {α : Type} (env : Env α) (op : Operator)
    (a b : Operand α) (c c1 : Counters) (os : Ostream) :
    (isPointerIntegerPair a b = false →
      ∃ e : BinaryExpr α, execute (captureBinary env op a b) c = some (e, c.compared)) ∧
    (∀ (e : BinaryExpr α) (c2 : Counters),
      execute (captureBinary env op a b) c = some (e, c2) →
        c2.comparisons = c.comparisons + 1 ∧
        (e.toITransientExpression env).getResult c1 = (e.m_result, c1) ∧
        (e.toITransientExpression env).isBinaryExpression c1 = (true, c1) ∧
        ((e.toITransientExpression env).streamReconstructedExpression os
          c1).2.comparisons = c1.comparisons) := by
  refine ⟨fun h => ⟨_, by rw [captureBinary_generic env op a b h]; rfl⟩, ?_⟩
  intro e c2 h
  obtain ⟨hc, he⟩ := captureBinary_shape env op a b c c2 e h
  refine ⟨by rw [hc]; rfl, rfl, ?_, rfl⟩
  rw [he]
  rfl

/-- C5, at `3 < 4` in the built-in environment. -/
theorem comparison_evaluated_once_witness :
    isPointerIntegerPair (.int 3 : Operand Bool) (.int 4) = false ∧
    (∃ e : BinaryExpr Bool,
      execute (captureBinary builtinEnv .lt (.int 3) (.int 4)) ⟨0, 0⟩ =
        some (e, Counters.compared ⟨0, 0⟩)) ∧
    execute (captureBinary builtinEnv .lt (.int 3) (.int 4)) ⟨0, 0⟩ =
      some (BinaryExpr.ctor true (.int 3) "<" (.int 4), ⟨1, 0⟩) ∧
    ((⟨1, 0⟩ : Counters).comparisons = (⟨0, 0⟩ : Counters).comparisons + 1 ∧
      ((BinaryExpr.ctor true (.int 3) "<" (.int 4)).toITransientExpression builtinEnv).getResult
        ⟨1, 0⟩ = (true, ⟨1, 0⟩) ∧
      ((BinaryExpr.ctor true (.int 3) "<"
        (.int 4)).toITransientExpression builtinEnv).isBinaryExpression ⟨1, 0⟩ =
        (true, ⟨1, 0⟩) ∧
      (((BinaryExpr.ctor true (.int 3) "<"
        (.int 4)).toITransientExpression builtinEnv).streamReconstructedExpression ""
        ⟨1, 0⟩).2.comparisons = 1) :=
  ⟨by decide,
    (comparison_evaluated_once builtinEnv .lt (.int 3) (.int 4) ⟨0, 0⟩ ⟨1, 0⟩ "").1 (by decide),
    by decide,
    (comparison_evaluated_once builtinEnv .lt (.int 3) (.int 4) ⟨0, 0⟩ ⟨1, 0⟩ "").2
      (BinaryExpr.ctor true (.int 3) "<" (.int 4)) ⟨1, 0⟩ (by decide)⟩

/-- C6: capturing an expression, unary or binary, and reading its result and
its binary flag calls `stringify` zero times; the count rises only on
reconstruction, by two for a binary expression and by one for a unary one. -/
theorem stringify_only_on_reconstruction {α : Type} (env : Env α) (op : Operator)
    (a b : Operand α) (c : Counters) (os : Ostream) :
    (isPointerIntegerPair a b = false →
      ∃ e : BinaryExpr α, execute (captureBinary env op a b) c = some (e, c.compared)) ∧
    (∀ (e : BinaryExpr α) (c2 : Counters),
      execute (captureBinary env op a b) c = some (e, c2) →
        ((e.toITransientExpression env).isBinaryExpression
          ((e.toITransientExpression env).getResult c2).2).2.stringifications =
            c.stringifications ∧
        ((e.toITransientExpression env).streamReconstructedExpression os
          c2).2.stringifications = c.stringifications + 2) ∧
    (((captureUnary env a).toITransientExpression env).isBinaryExpression
        (((captureUnary env a).toITransientExpression env).getResult c).2).2.stringifications =
      c.stringifications ∧
    (((captureUnary env a).toITransientExpression env).streamReconstructedExpression os
        c).2.stringifications = c.stringifications + 1 := by
  refine ⟨fun h => ⟨_, by rw [captureBinary_generic env op a b h]; rfl⟩, ?_, rfl, rfl⟩
  intro e c2 h
  obtain ⟨hc, _⟩ := captureBinary_shape env op a b c c2 e h
  subst hc
  exact ⟨rfl, rfl⟩

/-- C6, at the failing comparison `3 == 4` in the built-in environment. -/
theorem stringify_only_on_reconstruction_witness :
    isPointerIntegerPair (.int 3 : Operand Bool) (.int 4) = false ∧
    (∃ e : BinaryExpr Bool,
      execute (captureBinary builtinEnv .eq (.int 3) (.int 4)) ⟨0, 0⟩ =
        some (e, Counters.compared ⟨0, 0⟩)) ∧
    execute (captureBinary builtinEnv .eq (.int 3) (.int 4)) ⟨0, 0⟩ =
      some (BinaryExpr.ctor false (.int 3) "==" (.int 4), ⟨1, 0⟩) ∧
    ((((BinaryExpr.ctor false (.int 3) "=="
        (.int 4)).toITransientExpression builtinEnv).isBinaryExpression
        (((BinaryExpr.ctor false (.int 3) "=="
          (.int 4)).toITransientExpression builtinEnv).getResult ⟨1, 0⟩).2).2.stringifications
        = 0 ∧
      (((BinaryExpr.ctor false (.int 3) "=="
        (.int 4)).toITransientExpression builtinEnv).streamReconstructedExpression ""
        ⟨1, 0⟩).2.stringifications = 0 + 2) :=
  ⟨by decide,
    (stringify_only_on_reconstruction builtinEnv .eq (.int 3) (.int 4) ⟨0, 0⟩ "").1
      (by decide),
    by decide,
    (stringify_only_on_reconstruction builtinEnv .eq (.int 3) (.int 4) ⟨0, 0⟩ "").2.1
      (BinaryExpr.ctor false (.int 3) "==" (.int 4)) ⟨1, 0⟩ (by decide)⟩

/-! ## The shape guard -/

/-- C7: applying `==`, `!=`, `<`, `<=`, `>`, `>=`, `&&` or `||` to an already
built binary expression, with a right operand of any type, fails at build
time with a static assertion; no operator applied to a binary expression
produces an expression, and the build errors are the only failures; `&&` and
`||` applied to a capture object are rejected in the same way. -/
theorem chained_operator_rejected {α : Type} (T : Type) (e : BinaryExpr α) (rhs : T)
    (op : AppliedOperator) (lhs : ExprLhs α) :
    (e.applyOperator T (.symbol .eq) rhs = .error (.staticAssert chainedComparisonMessage) ∧
      e.applyOperator T (.symbol .ne) rhs = .error (.staticAssert chainedComparisonMessage) ∧
      e.applyOperator T (.symbol .lt) rhs = .error (.staticAssert chainedComparisonMessage) ∧
      e.applyOperator T (.symbol .le) rhs = .error (.staticAssert chainedComparisonMessage) ∧
      e.applyOperator T (.symbol .gt) rhs = .error (.staticAssert chainedComparisonMessage) ∧
      e.applyOperator T (.symbol .ge) rhs = .error (.staticAssert chainedComparisonMessage) ∧
      e.applyOperator T (.logical .and) rhs =
        .error (.staticAssert chainedComparisonMessage) ∧
      e.applyOperator T (.logical .or) rhs =
        .error (.staticAssert chainedComparisonMessage)) ∧
    (∀ r : Option (BinaryExpr α), e.applyOperator T op rhs ≠ .ok r) ∧
    (operatorAnd T lhs rhs = .error (.staticAssert logicalAndMessage) ∧
      operatorOr T lhs rhs = .error (.staticAssert logicalOrMessage)) := by
  refine ⟨⟨rfl, rfl, rfl, rfl, rfl, rfl, rfl, rfl⟩, ?_, rfl, rfl⟩
  intro r h
  rcases op with op | op <;> cases op <;> cases h

/-- C8, refuted for the bitwise operators: `(1 == 1) | 1` is not answered by the
message of the guard, the class declares no `operator |`. -/
theorem bitwise_chain_not_guarded :
    (BinaryExpr.ctor true (.int 1) "==" (.int 1) : BinaryExpr Bool).applyOperator Int
        (.symbol .bitor) 1 = .error .noMatchingOperator ∧
    (BinaryExpr.ctor true (.int 1) "==" (.int 1) : BinaryExpr Bool).applyOperator Int
        (.symbol .bitor) 1 ≠ .error (.staticAssert chainedComparisonMessage) := by
  refine ⟨rfl, ?_⟩
  intro h
  cases h

/-- C8, amended: applied to an already built binary expression with a right
operand of any type, each of `==`, `!=`, `<`, `<=`, `>`, `>=` fails with the
one fixed message of the guard, which names the remedy; for `|`, `&` and `^`
the class declares no operator and the message of the guard is not produced. -/
theorem comparison_chain_guard_message {α : Type} (T : Type) (e : BinaryExpr α) (rhs : T)
    (op : Operator) :
    e.applyOperator T (.symbol op) rhs =
      (if op = .bitor ∨ op = .bitand ∨ op = .bitxor then .error .noMatchingOperator
        else .error (.staticAssert chainedComparisonMessage)) ∧
    chainedComparisonMessage =
      "chained comparisons are not supported inside assertions, wrap the expression inside parentheses, or decompose it" := by
  refine ⟨?_, by decide⟩
  cases op <;> rfl

/-! ## Reconstruction -/

/-- C9: the reconstruction of the binary expression captured from `a op b` is
`formatReconstructedExpression` applied to `stringify(a)`, the spelling of
`op` and `stringify(b)`, with `a` the captured left and `b` the captured right
operand (the expression does build for operands that are not a pointer paired
with an integer); the text does not depend on the stored result. -/
theorem reconstruction_of_binary {α : Type} (env : Env α) (op : Operator) (a b : Operand α)
    (c c1 : Counters) (os : Ostream) (r1 r2 : Bool) :
    (isPointerIntegerPair a b = false →
      ∃ e : BinaryExpr α, execute (captureBinary env op a b) c = some (e, c.compared)) ∧
    (∀ (e : BinaryExpr α) (c2 : Counters),
      execute (captureBinary env op a b) c = some (e, c2) →
        ((e.toITransientExpression env).streamReconstructedExpression os c1).1 =
          env.formatReconstructedExpression os (env.stringify a) (stringize op)
            (env.stringify b) ∧
        e.m_lhs = a ∧ e.m_op = stringize op ∧ e.m_rhs = b) ∧
    [Operator.eq, .ne, .lt, .le, .gt, .ge, .bitor, .bitand, .bitxor].map stringize =
      ["==", "!=", "<", "<=", ">", ">=", "|", "&", "^"] ∧
    ((BinaryExpr.ctor r1 a (stringize op) b).toITransientExpression
        env).streamReconstructedExpression os c1 =
      ((BinaryExpr.ctor r2 a (stringize op) b).toITransientExpression
        env).streamReconstructedExpression os c1 := by
  refine ⟨fun h => ⟨_, by rw [captureBinary_generic env op a b h]; rfl⟩, ?_, by decide, rfl⟩
  intro e c2 h
  obtain ⟨_, he⟩ := captureBinary_shape env op a b c c2 e h
  rw [he]
  exact ⟨rfl, rfl, rfl, rfl⟩

/-- C9, at `3 >= 4` in the built-in environment. -/
theorem reconstruction_of_binary_witness :
    isPointerIntegerPair (.int 3 : Operand Bool) (.int 4) = false ∧
    (∃ e : BinaryExpr Bool,
      execute (captureBinary builtinEnv .ge (.int 3) (.int 4)) ⟨0, 0⟩ =
        some (e, Counters.compared ⟨0, 0⟩)) ∧
    execute (captureBinary builtinEnv .ge (.int 3) (.int 4)) ⟨0, 0⟩ =
      some (BinaryExpr.ctor false (.int 3) ">=" (.int 4), ⟨1, 0⟩) ∧
    ((((BinaryExpr.ctor false (.int 3) ">="
        (.int 4)).toITransientExpression builtinEnv).streamReconstructedExpression ""
        ⟨1, 0⟩).1 =
        builtinEnv.formatReconstructedExpression "" (builtinEnv.stringify (.int 3))
          (stringize .ge) (builtinEnv.stringify (.int 4)) ∧
      (BinaryExpr.ctor false (.int 3) ">=" (.int 4) : BinaryExpr Bool).m_lhs = .int 3 ∧
      (BinaryExpr.ctor false (.int 3) ">=" (.int 4) : BinaryExpr Bool).m_op = stringize .ge ∧
      (BinaryExpr.ctor false (.int 3) ">=" (.int 4) : BinaryExpr Bool).m_rhs = .int 4) ∧
    builtinEnv.formatReconstructedExpression "" (builtinEnv.stringify (.int 3))
      (stringize .ge) (builtinEnv.stringify (.int 4)) = "3 >= 4" :=
  ⟨by decide,
    (reconstruction_of_binary builtinEnv .ge (.int 3) (.int 4) ⟨0, 0⟩ ⟨1, 0⟩ "" true false).1
      (by decide),
    by decide,
    (reconstruction_of_binary builtinEnv .ge (.int 3) (.int 4) ⟨0, 0⟩ ⟨1, 0⟩ ""
      true false).2.1 (BinaryExpr.ctor false (.int 3) ">=" (.int 4)) ⟨1, 0⟩ (by decide),
    by decide⟩

end Catch
